import Mathlib

/-!
Verification of the board-state resolver and mutator of `ai-crew-sandbox`
(`src/orchestrator.py`) and the chat notifier (`src/core_engineers.py`).

The Python code is shallowly embedded as pure Lean functions.  External I/O
(HTTP requests, the GitHub REST client) is made explicit: every function that
in Python performs a request instead receives the outcome of that request as
an argument (an environment record), and functions that issue several
requests additionally return the list of requests they issued (a trace), so
that call order and call arguments are provable facts.

Caveat on fidelity: the Python code reads GraphQL responses through chained
`dict.get` calls with `{}` defaults.  When an intermediate key is absent this
yields the default; when an intermediate key is present with value `null`,
Python would instead raise `AttributeError` (`None.get`).  The embedding
models the absent-key behaviour (lookup failure propagates as the default);
responses with a present-but-null intermediate object are outside the model.
No claim under verification depends on that corner.
-/

/-- A JSON value, as produced by `resp.json()` in `src/orchestrator.py`. -/
inductive Json where
  | null : Json
  | bool : Bool → Json
  | num : Int → Json
  | str : String → Json
  | arr : List Json → Json
  | obj : List (String × Json) → Json

/-- Python truthiness of a JSON value (`if x:`): `None`, `False`, `0`, `""`,
`[]` and `{}` are falsy, everything else truthy. -/
def Json.truthy : Json → Bool
  | .null => false
  | .bool b => b
  | .num n => n != 0
  | .str s => s != ""
  | .arr xs => !xs.isEmpty
  | .obj fs => !fs.isEmpty

/-- Key lookup on a JSON object (`d[k]` when present); `none` when the key is
absent or the value is not an object. -/
def Json.lookup : Json → String → Option Json
  | .obj fs, k => (fs.find? (fun p => p.1 == k)).map (fun p => p.2)
  | _, _ => none

/-- Python `k in d` on a JSON object. -/
def Json.hasKey (j : Json) (k : String) : Bool :=
  (j.lookup k).isSome

/-- Python `d.get(k, default)`. -/
def Json.getD (j : Json) (k : String) (d : Json) : Json :=
  (j.lookup k).getD d

-- ---------- Configuration constants (module level of orchestrator.py) ----------

/-- `REPO_FULL = "halitipek/ai-crew-sandbox"`. -/
def REPO_FULL : String := "halitipek/ai-crew-sandbox"

/-- `ISSUE_NUMBER = 1`. -/
def ISSUE_NUMBER : Nat := 1

/-- `BRANCH = "feature/mvp1_world_skeleton"`. -/
def BRANCH : String := "feature/mvp1_world_skeleton"

/-- `owner, name = REPO_FULL.split("/")` — first component. -/
def repoOwner : String := "halitipek"

/-- `owner, name = REPO_FULL.split("/")` — second component. -/
def repoName : String := "ai-crew-sandbox"

-- ---------- The low-level GraphQL helper `gql` ----------

/-- Outcome of the `requests.post` call inside `gql`: a timeout, another
transport-level error, or an HTTP response with a status code and a body
(`none` = body that fails JSON decoding). -/
inductive HttpOutcome where
  | timeout : HttpOutcome
  | transportErr : HttpOutcome
  | response : Nat → Option Json → HttpOutcome

/-- `requests.Response.raise_for_status` raises exactly for 4xx and 5xx
status codes (400 ≤ status < 600). -/
def errStatus (s : Nat) : Bool :=
  decide (400 ≤ s) && decide (s < 600)

/-- `gql(query, variables)` from `src/orchestrator.py` lines 35-59, as a
function of the HTTP outcome.  Returns the parsed response, or `none` on:
timeout, transport error, `raise_for_status` (4xx/5xx), JSON decode failure,
a body carrying an `errors` key, or a body whose `data` is absent or falsy. -/
def gql (o : HttpOutcome) : Option Json :=
  match o with
  | .timeout => none
  | .transportErr => none
  | .response s body =>
    if errStatus s then none
    else
      match body with
      | none => none
      | some j =>
        if j.hasKey "errors" then none
        else if !(j.getD "data" .null).truthy then none
        else some j

-- ---------- String helpers mirroring Python string operations ----------

/-- Substring test on character lists: some suffix of `t` begins with
`frag`. -/
def listContainsSub (frag t : List Char) : Bool :=
  t.tails.any (fun suf => frag.isPrefixOf suf)

/-- Python substring containment `frag in t`. -/
def strContainsSub (frag t : String) : Bool :=
  listContainsSub frag.data t.data

/-- Python `str.lower()` (ASCII range, which covers all names used here). -/
def lowerStr (s : String) : String :=
  String.mk (s.data.map Char.toLower)

/-- Python `s.startswith(pre)`. -/
def pyStartsWith (s pre : String) : Bool :=
  pre.data.isPrefixOf s.data

/-- Python `", ".join(names)` as used in the option-missing error message. -/
def joinComma : List String → String
  | [] => ""
  | [a] => a
  | a :: rest => a ++ ", " ++ joinComma rest

-- ---------- Resolver data model ----------

/-- One node of `projectsV2(first:20){nodes{id title}}`. -/
structure BoardNode where
  id : String
  title : String
deriving DecidableEq

/-- One entry of the `options { id name }` list delivered with the Status
field. -/
structure OptData where
  id : String
  name : String
deriving DecidableEq

/-- Decoded `data.node.field` of the Status-field query: `sf_data.get("id")`
(may be absent) and `sf_data.get("options", [])`. -/
structure StatusFieldData where
  id : Option String
  options : List OptData
deriving DecidableEq

/-- One entry of the `options(names:[$option_name]) { id databaseId }` list
of the secondary normalization query (`id` may be absent or null). -/
structure SecOpt where
  id : Option String
deriving DecidableEq

/-- Environment of `fetch_project_ids`: the decoded result of each of its
(up to three) `gql` calls.  For each field, `none` means the `gql` call
returned `None`; the inner values are the nested payloads read through the
`dict.get` chains of the source. -/
structure FetchEnv where
  /-- The project query: `data.viewer.projectsV2.nodes` and
  `data.repository.projectsV2.nodes`, each read with `or []` —
  a `none` element models a `null` node in the lists. -/
  projResp : Option (List (Option BoardNode) × List (Option BoardNode))
  /-- The Status-field query: outer `none` = `gql` failed; inner `none` =
  `data.node.field` absent or null (`if not sf_data`). -/
  fieldResp : Option (Option StatusFieldData)
  /-- The secondary option-id query:
  `data.node.field.options` (absent nested keys decode to `some []`). -/
  secondaryResp : Option (List SecOpt)

/-- The three identifiers `fetch_project_ids` returns and the module stores
as `PROJECT_ID, STATUS_FIELD_ID, DEV_OPTION_ID`. -/
structure Resolved where
  project_id : String
  status_field_id : String
  dev_option_id : String
deriving DecidableEq

/-- The `gql` calls `fetch_project_ids` can issue, in order: the project
query, the Status-field query, the secondary option-id query. -/
inductive FetchAction where
  | qProj : FetchAction
  | qField : FetchAction
  | qSecondary : FetchAction
deriving DecidableEq

/-- The filter of line 81: `n and "SimplyECS" in n.get("title", "")`. -/
def projectMatch : Option BoardNode → Bool
  | none => false
  | some b => strContainsSub "SimplyECS" b.title

/-- Error message of line 75. -/
def msgProjQueryFail : String := "Proje ID\x27si sorgusu başarısız."

/-- Error message of line 80 (with `REPO_FULL` interpolated). -/
def msgNoProjects : String :=
  "\x27" ++ REPO_FULL ++ "\x27 için hiç GitHub Projesi bulunamadı."

/-- Error message of line 82. -/
def msgProjNotFound : String :=
  "\x27SimplyECS\x27 içeren bir proje bulunamadı."

/-- Error message of line 105. -/
def msgFieldQueryFail : String := "Status alanı sorgusu başarısız."

/-- Error message of lines 108/125 (the `KeyError` text wrapped by the
`ValueError` of line 125). -/
def msgFieldShape : String :=
  "Status field ID\x27si alınırken yapı hatası: " ++
    "\x27Status\x27 alanı (\x27field\x27) yanıtta bulunamadı."

/-- Error message of line 110. -/
def msgNoFieldId : String :=
  "Status alanı için \x27id\x27 değeri bulunamadı."

/-- Error message of lines 119-120: names the missing option and enumerates
the option names actually seen. -/
def msgDevMissing (options : List OptData) : String :=
  "\x27Dev\x27 seçeneği bulunamadı. Mevcut seçenekler: " ++
    joinComma (options.map (fun o => o.name))

/-- Lines 77-84: concatenate viewer boards and repository boards (in that
order, no de-duplication) and select the first whose title contains
`"SimplyECS"`; fail if the list is empty or nothing matches. -/
def selectProject (viewerNodes repoNodes : List (Option BoardNode)) :
    Except String BoardNode :=
  let nodes := viewerNodes ++ repoNodes
  if nodes.isEmpty then .error msgNoProjects
  else
    match nodes.find? projectMatch with
    | some (some proj) => .ok proj
    | _ => .error msgProjNotFound

/-- Line 118: `next((opt for opt in status_options if opt["name"].lower() ==
"dev"), None)`, with the line 119-120 error when absent. -/
def devOptionLookup (options : List OptData) : Except String OptData :=
  match options.find? (fun o => lowerStr o.name == "dev") with
  | some o => .ok o
  | none => .error (msgDevMissing options)

/-- Line 133: the secondary query is attempted only when the option id does
not already start with `"PVTO_"`. -/
def needsSecondaryQuery (devId : String) : Bool :=
  !(pyStartsWith devId "PVTO_")

/-- Lines 151-162: replace the option id by the one from the secondary query
only when that query returned a response, its options list is non-empty, and
the first entry carries a truthy id; otherwise keep the original id. -/
def normalizeDevOptionId (devId : String) (secondary : Option (List SecOpt)) :
    String :=
  match secondary with
  | none => devId
  | some [] => devId
  | some (o :: _) =>
    match o.id with
    | none => devId
    | some nid => if nid == "" then devId else nid

/-- Lines 129-171, after the Dev option has been found: issue the secondary
query only when the id lacks the `"PVTO_"` prefix, never fail, and return
the final triple. -/
def finishResolution (project_id fid devId : String)
    (secondary : Option (List SecOpt)) : List FetchAction × Resolved :=
  if pyStartsWith devId "PVTO_" then
    ([], ⟨project_id, fid, devId⟩)
  else
    ([.qSecondary], ⟨project_id, fid, normalizeDevOptionId devId secondary⟩)

/-- `fetch_project_ids` (lines 62-171): the `gql` calls issued and either a
fatal error message (a raised `ValueError`, which line 178 turns into
`exit(1)`) or the resolved identifier triple. -/
def fetch_project_ids (env : FetchEnv) :
    List FetchAction × Except String Resolved :=
  match env.projResp with
  | none => ([.qProj], .error msgProjQueryFail)
  | some (viewerNodes, repoNodes) =>
    match selectProject viewerNodes repoNodes with
    | .error e => ([.qProj], .error e)
    | .ok proj =>
      match env.fieldResp with
      | none => ([.qProj, .qField], .error msgFieldQueryFail)
      | some none => ([.qProj, .qField], .error msgFieldShape)
      | some (some sf) =>
        match sf.id with
        | none => ([.qProj, .qField], .error msgNoFieldId)
        | some fid =>
          if fid == "" then ([.qProj, .qField], .error msgNoFieldId)
          else
            match devOptionLookup sf.options with
            | .error e => ([.qProj, .qField], .error e)
            | .ok devOpt =>
              let fin := finishResolution proj.id fid devOpt.id
                env.secondaryResp
              ([.qProj, .qField] ++ fin.1, .ok fin.2)

-- ---------- The registrar and mutator `move_issue_to_dev` ----------

/-- The `gql` calls of `move_issue_to_dev` (lines 188-280), with the
variables each call carries: the issue-id query, the
`addProjectV2ItemById` mutation, the `updateProjectV2ItemFieldValue`
mutation (variable `$opt` declared `ID!`), and its retry variant
(identical mutation, variable `$opt` declared `String!`). -/
inductive MoveAction where
  | queryIssueId : Nat → String → String → MoveAction
  | addItem : String → Json → MoveAction
  | moveCard : String → String → String → String → MoveAction
  | altMoveCard : String → String → String → String → MoveAction

/-- Environment of `move_issue_to_dev`: the `gql` result of each call it can
issue. -/
structure MoveEnv where
  issueIdResp : Option Json
  addResp : Option Json
  moveResp : Option Json
  altResp : Option Json

/-- Which print the function ends on: line 250 (first mutation confirmed),
line 276 (retry confirmed), or lines 252/278 (both attempts failed, warnings
only). -/
inductive MoveResult where
  | movedFirst : MoveResult
  | movedAlt : MoveResult
  | bothFailed : MoveResult
deriving DecidableEq

/-- Line 248/274: `resp and resp.get("data", {}).get(
"updateProjectV2ItemFieldValue", {}).get("projectV2Item")` — success only
when the nested confirmation object is present and truthy. -/
def moveOk (resp : Option Json) : Bool :=
  match resp with
  | none => false
  | some j =>
    ((((j.getD "data" (.obj [])).getD "updateProjectV2ItemFieldValue"
        (.obj [])).lookup "projectV2Item").getD .null).truthy

/-- Line 219: `resp.get("data", {}).get("repository", {}).get("issue",
{}).get("id")`. -/
def contentIdOf (resp : Json) : Option Json :=
  (((resp.getD "data" (.obj [])).getD "repository" (.obj [])).getD "issue"
    (.obj [])).lookup "id"

/-- Lines 206-226: the issue-id query, then — only when it succeeded and
yielded a truthy content id — the `addProjectV2ItemById` call with that
content id.  The add response itself is only tested for truthiness (a debug
print); nothing of its payload is read. -/
def preMoveActions (g : Resolved) (env : MoveEnv) : List MoveAction :=
  MoveAction.queryIssueId ISSUE_NUMBER repoOwner repoName ::
    (match env.issueIdResp with
     | none => []
     | some r =>
       match contentIdOf r with
       | none => []
       | some cid =>
         if cid.truthy then [MoveAction.addItem g.project_id cid] else [])

/-- `move_issue_to_dev(item_id)` (lines 188-280): the calls issued and the
final outcome.  `g` holds the module globals `PROJECT_ID`,
`STATUS_FIELD_ID`, `DEV_OPTION_ID`; `item_id` is the argument the caller
passes.  The first mutation sends the four identifiers; when it is not
confirmed, exactly one retry is issued with the very same four identifiers
(only the GraphQL variable type of `$opt` differs); nothing follows the
retry. -/
def move_issue_to_dev (g : Resolved) (item_id : String) (env : MoveEnv) :
    List MoveAction × MoveResult :=
  let pre := preMoveActions g env
  let attempt1 := MoveAction.moveCard g.project_id item_id
    g.status_field_id g.dev_option_id
  if moveOk env.moveResp then (pre ++ [attempt1], .movedFirst)
  else
    let attempt2 := MoveAction.altMoveCard g.project_id item_id
      g.status_field_id g.dev_option_id
    if moveOk env.altResp then (pre ++ [attempt1, attempt2], .movedAlt)
    else (pre ++ [attempt1, attempt2], .bothFailed)

/-- Actions that are status mutations (first attempt or retry). -/
def isAttempt : MoveAction → Bool
  | .moveCard _ _ _ _ => true
  | .altMoveCard _ _ _ _ => true
  | _ => false

-- ---------- The notifier ----------

/-- Outcome of a `requests.post` to the Slack webhook. -/
inductive ReqOutcome where
  | timeout : ReqOutcome
  | connectionError : ReqOutcome
  | response : Nat → ReqOutcome
deriving DecidableEq

/-- The exceptions `requests` can raise here; all are subclasses of
`requests.exceptions.RequestException`. -/
inductive ReqError where
  | timeoutErr : ReqError
  | connErr : ReqError
  | httpError : Nat → ReqError
deriving DecidableEq

/-- `requests.post(...)` returning the status code, or raising. -/
def requestsPost (o : ReqOutcome) : Except ReqError Nat :=
  match o with
  | .timeout => .error .timeoutErr
  | .connectionError => .error .connErr
  | .response s => .ok s

/-- `response.raise_for_status()`. -/
def raiseForStatus (s : Nat) : Except ReqError Unit :=
  if errStatus s then .error (.httpError s) else .ok ()

/-- `notify_slack` from `src/core_engineers.py` lines 62-71.  The outer
`Except String` layer is the space of exceptions that could escape the
function: the body catches every `RequestException` (printing a warning and
returning `False`), so the result is always `.ok`. -/
def notify_slack (o : ReqOutcome) : Except String Bool :=
  match requestsPost o with
  | .error _ => .ok false
  | .ok s =>
    match raiseForStatus s with
    | .error _ => .ok false
    | .ok _ => .ok true

/-- The Slack step of `orchestrator.main` (lines 370-380): post, raise for
status, catch everything; `true` = the success print of line 376 ran. -/
def slackDeliveredOf (o : ReqOutcome) : Bool :=
  match o with
  | .timeout => false
  | .connectionError => false
  | .response s => !errStatus s

-- ---------- The main workflow ----------

/-- Step 1 (lines 286-301): branch creation via the REST client.  `ghError`
is a `GithubException` other than the 422 reference-already-exists,
`unexpectedErr` any other exception; both return early. -/
inductive BranchOutcome where
  | created : BranchOutcome
  | alreadyExists : BranchOutcome
  | ghError : BranchOutcome
  | unexpectedErr : BranchOutcome
deriving DecidableEq

/-- Line 293-301: only `created` and `alreadyExists` continue past step 1. -/
def branchOk : BranchOutcome → Bool
  | .created => true
  | .alreadyExists => true
  | .ghError => false
  | .unexpectedErr => false

/-- Step 2 (lines 303-324), per file: the file already exists, the existence
check failed, or the file was missing and the create call succeeded or
failed.  No outcome aborts the run. -/
inductive FileCheck where
  | present : FileCheck
  | checkErr : FileCheck
  | missingCreateOk : FileCheck
  | missingCreateErr : FileCheck
deriving DecidableEq

/-- A pull request as seen by step 3. -/
structure PrInfo where
  number : Nat
  url : String
deriving DecidableEq

/-- Step 3 (lines 326-342): an open PR for the branch already exists, one
was created, or the lookup/creation raised (leaving `pr = None`). -/
inductive PrOutcome where
  | found : PrInfo → PrOutcome
  | created : PrInfo → PrOutcome
  | ghError : PrOutcome
  | unexpectedErr : PrOutcome
deriving DecidableEq

/-- The PR object available after step 3, if any (line 344: `if not pr`). -/
def prOf : PrOutcome → Option PrInfo
  | .found pr => some pr
  | .created pr => some pr
  | .ghError => none
  | .unexpectedErr => none

/-- The issue object of step 4: `node_id` attribute and
`raw_data["node_id"]`. -/
structure IssueObj where
  node_id : Option String
  raw_node_id : Option String
deriving DecidableEq

/-- Line 352: `getattr(issue, "node_id", None) or issue.raw_data.get(
"node_id")` — Python `or` falls through on falsy (absent or empty). -/
def itemIdOf (iss : IssueObj) : Option String :=
  match iss.node_id with
  | some s => if s == "" then iss.raw_node_id else some s
  | none => iss.raw_node_id

/-- Line 353 `if not item_id`: the id actually used, `none` when absent or
empty. -/
def usableItemId (iss : IssueObj) : Option String :=
  match itemIdOf iss with
  | none => none
  | some s => if s == "" then none else some s

/-- Environment of `main`: the outcome of every external interaction, in
program order. -/
structure MainEnv where
  branch : BranchOutcome
  file1 : FileCheck
  file2 : FileCheck
  pr : PrOutcome
  /-- `repo.get_issue(ISSUE_NUMBER)` (line 351): `none` = it raised, which
  aborts step 4 (caught at lines 365-368). -/
  issueFetch : Option IssueObj
  moveEnv : MoveEnv
  /-- Whether `issue.create_comment` (line 362) raised (also caught at lines
  365-368). -/
  commentRaises : Bool

/-- The externally visible calls of `main`, in order. -/
inductive MainAction where
  | createBranch : String → MainAction
  | checkFile : String → MainAction
  | addFile : String → MainAction
  | getPulls : MainAction
  | createPR : MainAction
  | getIssue : Nat → MainAction
  | gqlMove : MoveAction → MainAction
  | addComment : String → MainAction
  | slackPost : String → MainAction

/-- Step 2 for one path: the existence check, plus the create call when the
check reported 404. -/
def fileActions (path : String) : FileCheck → List MainAction
  | .present => [.checkFile path]
  | .checkErr => [.checkFile path]
  | .missingCreateOk => [.checkFile path, .addFile path]
  | .missingCreateErr => [.checkFile path, .addFile path]

/-- Step 3 calls: the open-PR listing, plus the create call when none was
found. -/
def prActions : PrOutcome → List MainAction
  | .found _ => [.getPulls]
  | .created _ => [.getPulls, .createPR]
  | .ghError => [.getPulls]
  | .unexpectedErr => [.getPulls]

/-- The Slack message of line 373 (`SLACK_TEXT.format(...)`). -/
def slackText (pr : PrInfo) : String :=
  ":rocket: PR *#" ++ toString pr.number ++ "* opened for MVP‑1 → " ++ pr.url

/-- Step 4 (lines 348-368): fetch the issue; when that succeeds, move the
card (when a usable item id exists) and post the comment.  Returns the calls
issued, the move outcome when a move was attempted, and whether the comment
was posted. -/
def issueStep (g : Resolved) (prNumber : Nat) (env : MainEnv) :
    List MainAction × Option MoveResult × Bool :=
  match env.issueFetch with
  | none => ([MainAction.getIssue ISSUE_NUMBER], none, false)
  | some iss =>
    let moved : List MainAction × Option MoveResult :=
      match usableItemId iss with
      | none => ([], none)
      | some iid =>
        let m := move_issue_to_dev g iid env.moveEnv
        (m.1.map MainAction.gqlMove, some m.2)
    (MainAction.getIssue ISSUE_NUMBER :: moved.1 ++
        [MainAction.addComment ("PR #" ++ toString prNumber ++ " linked.")],
      moved.2, !env.commentRaises)

/-- The run outcome for the primary work of `main` (everything except the
Slack notification). -/
structure PrimaryResult where
  branch : BranchOutcome
  prNumber : Option Nat
  moveDone : Option MoveResult
  commentPosted : Bool
deriving DecidableEq

/-- The full run outcome of `main`. -/
structure MainResult where
  primary : PrimaryResult
  slackAttempted : Bool
  slackDelivered : Bool
deriving DecidableEq

/-- `main` (lines 284-380) after startup resolution, as a function of the
resolved identifiers `g`, the environment and the Slack webhook outcome:
the calls issued and the run outcome.  Early returns: branch failure
(lines 298/301) and missing PR (lines 344-346, which prints
that the issue update and the Slack notification are skipped). -/
def mainFlow (g : Resolved) (env : MainEnv) (slack : ReqOutcome) :
    List MainAction × MainResult :=
  let t1 := [MainAction.createBranch BRANCH]
  if branchOk env.branch then
    let t2 := t1 ++ fileActions "src/ecs/World.hpp" env.file1 ++
      fileActions "src/ecs/World.cpp" env.file2 ++ prActions env.pr
    match prOf env.pr with
    | none =>
      (t2, ⟨⟨env.branch, none, none, false⟩, false, false⟩)
    | some pr =>
      let s4 := issueStep g pr.number env
      (t2 ++ s4.1 ++ [MainAction.slackPost (slackText pr)],
        ⟨⟨env.branch, some pr.number, s4.2.1, s4.2.2⟩, true,
          slackDeliveredOf slack⟩)
  else
    (t1, ⟨⟨env.branch, none, none, false⟩, false, false⟩)

/-- The item ids carried by the status mutations of a `main` trace. -/
def mutationItemIds (l : List MainAction) : List String :=
  l.filterMap (fun a =>
    match a with
    | .gqlMove (.moveCard _ i _ _) => some i
    | .gqlMove (.altMoveCard _ i _ _) => some i
    | _ => none)

/-- What `add_resp["data"]["addProjectV2ItemById"]["item"]["id"]` would
contain — the project Item wrapper id the add mutation reports.  The source
never reads it; this definition exists to compare it against the item id the
mutation actually receives. -/
def addRespItemId (resp : Option Json) : Option Json :=
  match resp with
  | none => none
  | some j =>
    ((((j.getD "data" (.obj [])).getD "addProjectV2ItemById"
        (.obj [])).getD "item" (.obj [])).lookup "id")

-- ---------- Concrete inputs for counterexamples and witnesses ----------

/-- Identifier triple used by the C1 run. -/
def g1ex : Resolved := ⟨"PVT_P0", "PVTSSF_F0", "PVTO_O1"⟩

/-- Issue-id query response: the issue content id is `I_kwDOC1`. -/
def issueIdJson1 : Json :=
  .obj [("data", .obj [("repository",
    .obj [("issue", .obj [("id", .str "I_kwDOC1")])])])]

/-- Add-mutation response reporting the Item wrapper id `PVTI_W1`. -/
def addJson1 : Json :=
  .obj [("data", .obj [("addProjectV2ItemById",
    .obj [("item", .obj [("id", .str "PVTI_W1")])])])]

/-- Environment of the C1 run: everything up to the card move succeeds; the
issue object carries content node id `I_kwDOC1`; the add mutation reports
wrapper id `PVTI_W1`. -/
def env1ex : MainEnv where
  branch := .created
  file1 := .present
  file2 := .present
  pr := .found ⟨7, "https://github.com/halitipek/ai-crew-sandbox/pull/7"⟩
  issueFetch := some ⟨some "I_kwDOC1", none⟩
  moveEnv := ⟨some issueIdJson1, some addJson1, none, none⟩
  commentRaises := false

/-- Identifier triple used by the C3 run. -/
def g3ex : Resolved := ⟨"PVT_P3", "F3", "O3"⟩

/-- Add-mutation response whose `item` object omits the `id` key. -/
def addJson3 : Json :=
  .obj [("data", .obj [("addProjectV2ItemById",
    .obj [("item", .obj [])])])]

/-- A confirmed `updateProjectV2ItemFieldValue` response. -/
def moveOkJson : Json :=
  .obj [("data", .obj [("updateProjectV2ItemFieldValue",
    .obj [("projectV2Item", .obj [("id", .str "PVTI_X")])])])]

/-- Environment of the C3 run: the add response omits the item id, the move
succeeds. -/
def env3ex : MoveEnv := ⟨some issueIdJson1, some addJson3, some moveOkJson, none⟩

/-- Identifier triple used by the C4 run. -/
def g4ex : Resolved := ⟨"PVT_P4", "F4", "O4"⟩

/-- Environment of the C4 run: every `gql` call fails. -/
def env4ex : MoveEnv := ⟨none, none, none, none⟩

/-- Body with a GraphQL `errors` array next to non-empty data (C5). -/
def errBodyEx : Json :=
  .obj [("errors", .arr [.str "Could not resolve to a node"]),
    ("data", .obj [("x", .num 1)])]

/-- Body whose `data` is null (C5). -/
def nullDataBodyEx : Json := .obj [("data", .null)]

/-- A well-formed body carrying data (C7). -/
def body7ex : Json := .obj [("data", .obj [("viewer", .str "ok")])]

/-- Identifier triple used by the C8 run. -/
def g8ex : Resolved := ⟨"PVT_P8", "F8", "O8"⟩

/-- Environment of the C8 run: the branch step succeeds but no PR is
available (the PR lookup raised). -/
def env8ex : MainEnv where
  branch := .created
  file1 := .present
  file2 := .present
  pr := .ghError
  issueFetch := none
  moveEnv := ⟨none, none, none, none⟩
  commentRaises := false

/-- Whether an action is the Slack post. -/
def isSlackPost : MainAction → Bool
  | .slackPost _ => true
  | _ => false

/-- Resolver environment used by the C10 witness: the Dev option id arrives
in the short format and the secondary query fails. -/
def env10ex : FetchEnv where
  projResp := some ([some ⟨"PVT_PX", "SimplyECS Kanban"⟩], [])
  fieldResp := some (some ⟨some "PVTSSF_FX", [⟨"abc123", "Todo"⟩, ⟨"def456", "Dev"⟩]⟩)
  secondaryResp := none

lemma find?_first {α : Type} (p : α → Bool) :
    ∀ (l : List α) (i : Nat) (b : α), l.get? i = some b → p b = true →
      (∀ j x, j < i → l.get? j = some x → p x = false) →
      l.find? p = some b := by
  intro l
  induction l with
  | nil => intro i b h; simp at h
  | cons a t ih =>
    intro i b hget hpb hfirst
    cases i with
    | zero =>
      simp only [List.get?_cons_zero, Option.some.injEq] at hget
      subst hget
      exact List.find?_cons_of_pos _ hpb
    | succ k =>
      have ha : p a = false := hfirst 0 a (Nat.succ_pos k) rfl
      rw [List.find?_cons_of_neg _ (by simp [ha])]
      exact ih k b (by simpa using hget) hpb
        (fun j x hj hx => hfirst (j + 1) x (by omega) (by simpa using hx))

lemma listContainsSub_correct (f t : List Char) :
    listContainsSub f t = true ↔ f <:+: t := by
  unfold listContainsSub
  rw [List.any_eq_true]
  constructor
  · rintro ⟨suf, hsuf, hpre⟩
    rw [List.mem_tails] at hsuf
    rw [List.isPrefixOf_iff_prefix] at hpre
    exact List.infix_iff_prefix_suffix.mpr ⟨suf, hpre, hsuf⟩
  · intro h
    obtain ⟨suf, hpre, hsuf⟩ := List.infix_iff_prefix_suffix.mp h
    exact ⟨suf, (List.mem_tails _ _).mpr hsuf, (List.isPrefixOf_iff_prefix).mpr hpre⟩

lemma strContainsSub_correct (f t : String) :
    strContainsSub f t = true ↔ f.data <:+: t.data := by
  unfold strContainsSub
  exact listContainsSub_correct _ _

lemma mem_infix_joinComma (x : String) :
    ∀ (l : List String), x ∈ l → x.data <:+: (joinComma l).data := by
  intro l
  induction l with
  | nil => intro h; simp at h
  | cons a rest ih =>
    intro hmem
    cases rest with
    | nil =>
      simp only [List.mem_singleton] at hmem
      subst hmem
      exact List.infix_refl _
    | cons b t =>
      rcases List.mem_cons.mp hmem with h | h
      · subst h
        show x.data <:+: (x ++ ", " ++ joinComma (b :: t)).data
        rw [String.data_append, String.data_append]
        have hp : x.data <+: x.data ++ ", ".data ++ (joinComma (b :: t)).data := by
          rw [List.append_assoc]
          exact List.prefix_append _ _
        exact hp.isInfix
      · have hx := ih h
        show x.data <:+: (a ++ ", " ++ joinComma (b :: t)).data
        rw [String.data_append, String.data_append]
        exact hx.trans ((List.suffix_append _ _).isInfix)

lemma not_isAttempt_preMove (g : Resolved) (env : MoveEnv) :
    ∀ a ∈ preMoveActions g env, isAttempt a = false := by
  intro a ha
  unfold preMoveActions at ha
  rcases List.mem_cons.mp ha with h | h
  · subst h; rfl
  · rcases henv : env.issueIdResp with _ | r
    · rw [henv] at h; simp at h
    · rw [henv] at h
      dsimp only at h
      rcases hc : contentIdOf r with _ | cid
      · rw [hc] at h; simp at h
      · rw [hc] at h
        dsimp only at h
        by_cases ht : cid.truthy
        · rw [if_pos ht] at h
          simp only [List.mem_singleton] at h
          subst h; rfl
        · rw [if_neg ht] at h; simp at h

lemma filter_isAttempt_preMove (g : Resolved) (env : MoveEnv) :
    (preMoveActions g env).filter isAttempt = [] := by
  refine List.filter_eq_nil_iff.mpr ?_
  intro a ha
  simp [not_isAttempt_preMove g env a ha]

lemma move_filter_isAttempt (g : Resolved) (item : String) (env : MoveEnv) :
    (move_issue_to_dev g item env).1.filter isAttempt =
      (if moveOk env.moveResp then
        [MoveAction.moveCard g.project_id item g.status_field_id g.dev_option_id]
      else
        [MoveAction.moveCard g.project_id item g.status_field_id g.dev_option_id,
         MoveAction.altMoveCard g.project_id item g.status_field_id
           g.dev_option_id]) := by
  unfold move_issue_to_dev
  by_cases h1 : moveOk env.moveResp
  · simp [h1, List.filter_append, filter_isAttempt_preMove, isAttempt]
  · by_cases h2 : moveOk env.altResp <;>
      simp [h1, h2, List.filter_append, filter_isAttempt_preMove, isAttempt]

lemma move_result_cases (g : Resolved) (item : String) (env : MoveEnv) :
    (move_issue_to_dev g item env).2 =
      (if moveOk env.moveResp then .movedFirst
       else if moveOk env.altResp then .movedAlt else .bothFailed) := by
  unfold move_issue_to_dev
  by_cases h1 : moveOk env.moveResp
  · simp [h1]
  · by_cases h2 : moveOk env.altResp <;> simp [h1, h2]

lemma any_isSlackPost_fileActions (p : String) (fc : FileCheck) :
    (fileActions p fc).any isSlackPost = false := by
  cases fc <;> rfl

lemma any_isSlackPost_prActions (po : PrOutcome) :
    (prActions po).any isSlackPost = false := by
  cases po <;> rfl

lemma any_isSlackPost_map_gqlMove (l : List MoveAction) :
    (l.map MainAction.gqlMove).any isSlackPost = false := by
  induction l with
  | nil => rfl
  | cons a t ih => simp [List.any_cons, isSlackPost, ih]

lemma any_isSlackPost_issueStep (g : Resolved) (n : Nat) (env : MainEnv) :
    (issueStep g n env).1.any isSlackPost = false := by
  unfold issueStep
  cases henv : env.issueFetch with
  | none => rfl
  | some iss =>
    dsimp only
    cases hu : usableItemId iss with
    | none => simp [isSlackPost]
    | some iid =>
      dsimp only
      simp [List.any_cons, List.any_append, isSlackPost,
        any_isSlackPost_map_gqlMove]

lemma mainFlow_slackAttempted (g : Resolved) (env : MainEnv)
    (slack : ReqOutcome) :
    (mainFlow g env slack).2.slackAttempted =
      (branchOk env.branch && (prOf env.pr).isSome) := by
  unfold mainFlow
  cases hb : branchOk env.branch with
  | false => rfl
  | true =>
    dsimp only
    cases hp : prOf env.pr with
    | none => rfl
    | some pr => rfl

lemma mainFlow_slack_trace (g : Resolved) (env : MainEnv)
    (slack : ReqOutcome) :
    (mainFlow g env slack).1.any isSlackPost =
      (mainFlow g env slack).2.slackAttempted := by
  unfold mainFlow
  cases hb : branchOk env.branch with
  | false => rfl
  | true =>
    dsimp only
    cases hp : prOf env.pr with
    | none =>
      dsimp only
      simp [List.any_append, List.any_cons, isSlackPost,
        any_isSlackPost_fileActions, any_isSlackPost_prActions]
    | some pr =>
      dsimp only
      simp [List.any_append, List.any_cons, isSlackPost,
        any_isSlackPost_fileActions, any_isSlackPost_prActions,
        any_isSlackPost_issueStep]

lemma mainFlow_slack_independent (g : Resolved) (env : MainEnv)
    (s1 s2 : ReqOutcome) :
    (mainFlow g env s1).1 = (mainFlow g env s2).1 ∧
      (mainFlow g env s1).2.primary = (mainFlow g env s2).2.primary := by
  unfold mainFlow
  cases hb : branchOk env.branch with
  | false => exact ⟨rfl, rfl⟩
  | true =>
    dsimp only
    cases hp : prOf env.pr with
    | none => exact ⟨rfl, rfl⟩
    | some pr => exact ⟨rfl, rfl⟩

lemma fetch_after_lookup (env : FetchEnv)
    (v r : List (Option BoardNode)) (proj : BoardNode)
    (sf : StatusFieldData) (fid : String) (devOpt : OptData)
    (hproj : env.projResp = some (v, r))
    (hsel : selectProject v r = .ok proj)
    (hfield : env.fieldResp = some (some sf))
    (hid : sf.id = some fid)
    (hfid : (fid == "") = false)
    (hdev : devOptionLookup sf.options = .ok devOpt) :
    fetch_project_ids env =
      ([FetchAction.qProj, FetchAction.qField] ++
        (finishResolution proj.id fid devOpt.id env.secondaryResp).1,
       .ok (finishResolution proj.id fid devOpt.id env.secondaryResp).2) := by
  unfold fetch_project_ids
  rw [hproj]
  dsimp only
  rw [hsel]
  dsimp only
  rw [hfield]
  dsimp only
  rw [hid]
  dsimp only
  rw [hfid]
  rw [if_neg (by simp)]
  rw [hdev]

lemma notify_slack_response (s : Nat) :
    notify_slack (.response s) = .ok (!errStatus s) := by
  unfold notify_slack requestsPost raiseForStatus
  dsimp only
  by_cases h : errStatus s
  · rw [if_pos h, h]; rfl
  · rw [if_neg h]
    have hf : errStatus s = false := by simpa using h
    rw [hf]; rfl

/-- C1: the claim requires the `itemId` of the status mutation to be the
Item wrapper id resolved within the project.  Evaluating the run at a
failing input shows the code instead passes the issue content node id
(`I_kwDOC1`, the value of `issue.node_id`) to both mutation attempts, and
never the wrapper id (`PVTI_W1`) that the add-mutation response reported:
the wrapper id is discarded by the source. -/
theorem C1_item_id_is_content_id :
    mutationItemIds (mainFlow g1ex env1ex .timeout).1 = ["I_kwDOC1", "I_kwDOC1"]
    ∧ env1ex.issueFetch = some ⟨some "I_kwDOC1", none⟩
    ∧ addRespItemId env1ex.moveEnv.addResp = some (.str "PVTI_W1")
    ∧ (mutationItemIds (mainFlow g1ex env1ex .timeout).1).contains "PVTI_W1"
        = false :=
  ⟨rfl, rfl, rfl, rfl⟩

/-- C2, counterexample: when no board title contains the fragment, the
error message of line 82 names the fragment but does not list the board
titles actually seen — the title `Kanban Foo` of the only board seen does
not occur in the message.  This refutes the claim that the error lists the
board titles. -/
theorem C2_counterexample :
    selectProject [] [some ⟨"PVT_1", "Kanban Foo"⟩] = .error msgProjNotFound
    ∧ strContainsSub "Kanban Foo" msgProjNotFound = false := by
  exact ⟨rfl, by decide⟩

/-- C2, amended: each failed resolution lookup produces a distinct fatal
error; the project-not-found error names the fragment (but not the titles
seen), and the option-not-found error enumerates every option name actually
seen. -/
theorem C2_amended_holds :
    (∀ v r, v ++ r ≠ [] → (∀ n ∈ v ++ r, projectMatch n = false) →
        selectProject v r = .error msgProjNotFound)
    ∧ strContainsSub "SimplyECS" msgProjNotFound = true
    ∧ (∀ opts, (∀ o ∈ opts, (lowerStr o.name == "dev") = false) →
        devOptionLookup opts = .error (msgDevMissing opts))
    ∧ (∀ opts o, o ∈ opts → strContainsSub o.name (msgDevMissing opts) = true)
    ∧ (msgProjQueryFail ≠ msgNoProjects ∧ msgProjQueryFail ≠ msgProjNotFound ∧
        msgNoProjects ≠ msgProjNotFound ∧ msgFieldQueryFail ≠ msgNoFieldId) := by
  refine ⟨?_, by decide, ?_, ?_, by decide⟩
  · intro v r hne hall
    have hemp : (v ++ r).isEmpty = false := by
      cases hvr : v ++ r with
      | nil => exact absurd hvr hne
      | cons a t => rfl
    have hf : (v ++ r).find? projectMatch = none :=
      List.find?_eq_none.mpr (by intro x hx; simp [hall x hx])
    simp [selectProject, hemp, hf]
  · intro opts hall
    have hf : opts.find? (fun o => lowerStr o.name == "dev") = none :=
      List.find?_eq_none.mpr (by intro x hx; simp [hall x hx])
    simp [devOptionLookup, hf]
  · intro opts o ho
    rw [strContainsSub_correct]
    unfold msgDevMissing
    rw [String.data_append]
    have h1 : o.name ∈ opts.map (fun x => x.name) :=
      List.mem_map.mpr ⟨o, ho, rfl⟩
    exact (mem_infix_joinComma o.name _ h1).trans
      ((List.suffix_append _ _).isInfix)

/-- C2, witness: the amended theorem applied at concrete inputs. -/
theorem C2_witness :
    selectProject [some ⟨"PVT_1", "Kanban Foo"⟩] [] = .error msgProjNotFound
    ∧ devOptionLookup [⟨"a1", "Todo"⟩, ⟨"b2", "Done"⟩] =
        .error (msgDevMissing [⟨"a1", "Todo"⟩, ⟨"b2", "Done"⟩])
    ∧ strContainsSub "Done" (msgDevMissing [⟨"a1", "Todo"⟩, ⟨"b2", "Done"⟩])
        = true :=
  ⟨C2_amended_holds.1 _ _ (by decide) (by decide),
   C2_amended_holds.2.2.1 _ (by decide),
   C2_amended_holds.2.2.2.1 _ ⟨"b2", "Done"⟩ (by decide)⟩

/-- C3, counterexample: with an add-mutation response that omits the item
id, the call list of `move_issue_to_dev` is exactly the issue-id query, the
add mutation, and the status mutation — no call listing the project items
follows, no linear scan happens, and registration does not fail.  This
refutes the claimed fallback path. -/
theorem C3_counterexample :
    addRespItemId env3ex.addResp = none
    ∧ move_issue_to_dev g3ex "I_kwDOC1" env3ex =
      ([.queryIssueId ISSUE_NUMBER repoOwner repoName,
        .addItem "PVT_P3" (.str "I_kwDOC1"),
        .moveCard "PVT_P3" "I_kwDOC1" "F3" "O3"], .movedFirst) :=
  ⟨rfl, rfl⟩

/-- C3, amended: the run first attempts the idempotent add mutation (when
the content id lookup succeeded), but the add response is never inspected
beyond truthiness — the calls and the outcome are identical for any two add
responses — and the status mutation always proceeds with the originally
supplied item id. -/
theorem C3_amended_holds :
    (∀ (g : Resolved) (item : String) (env : MoveEnv) (a a' : Option Json),
      move_issue_to_dev g item { env with addResp := a } =
        move_issue_to_dev g item { env with addResp := a' })
    ∧ (∀ (g : Resolved) (item : String) (env : MoveEnv),
      ((move_issue_to_dev g item env).1.filter isAttempt).head? =
        some (.moveCard g.project_id item g.status_field_id g.dev_option_id)) := by
  refine ⟨fun g item env a a' => rfl, ?_⟩
  intro g item env
  rw [move_filter_isAttempt]
  by_cases h : moveOk env.moveResp <;> simp [h]

/-- C4, counterexample: when the first status mutation fails, the single
retry carries exactly the same option id `O4` as the first attempt, and the
complete call list contains no re-resolution query between the two
attempts.  This refutes the claim that the retry uses an option id obtained
by re-resolving. -/
theorem C4_counterexample :
    move_issue_to_dev g4ex "item4" env4ex =
      ([.queryIssueId ISSUE_NUMBER repoOwner repoName,
        .moveCard "PVT_P4" "item4" "F4" "O4",
        .altMoveCard "PVT_P4" "item4" "F4" "O4"], .bothFailed) := rfl

/-- C4, amended: when the first status mutation fails, exactly one retry
is attempted, re-sending the same four identifiers (the retry differs only
in declaring the GraphQL `$opt` variable as `String!` instead of `ID!`);
a second failure is only logged (warning prints) and no third attempt is
made; when the first mutation succeeds there is no retry. -/
theorem C4_amended_holds : ∀ (g : Resolved) (item : String) (env : MoveEnv),
    (moveOk env.moveResp = false →
      (move_issue_to_dev g item env).1.filter isAttempt =
        [.moveCard g.project_id item g.status_field_id g.dev_option_id,
         .altMoveCard g.project_id item g.status_field_id g.dev_option_id]
      ∧ (move_issue_to_dev g item env).2 =
          (if moveOk env.altResp then .movedAlt else .bothFailed))
    ∧ (moveOk env.moveResp = true →
      (move_issue_to_dev g item env).1.filter isAttempt =
        [.moveCard g.project_id item g.status_field_id g.dev_option_id]
      ∧ (move_issue_to_dev g item env).2 = .movedFirst) := by
  intro g item env
  constructor
  · intro h
    rw [move_filter_isAttempt, move_result_cases]
    simp [h]
  · intro h
    rw [move_filter_isAttempt, move_result_cases]
    simp [h]

/-- C4, witness: the amended theorem applied at a concrete failing
environment. -/
theorem C4_witness :
    moveOk env4ex.moveResp = false
    ∧ ((move_issue_to_dev g4ex "item4" env4ex).1.filter isAttempt =
        [.moveCard "PVT_P4" "item4" "F4" "O4",
         .altMoveCard "PVT_P4" "item4" "F4" "O4"]
      ∧ (move_issue_to_dev g4ex "item4" env4ex).2 =
          (if moveOk env4ex.altResp then .movedAlt else .bothFailed)) :=
  ⟨rfl, (C4_amended_holds g4ex "item4" env4ex).1 rfl⟩

/-- C5: the mutator reports success only when the structured response
carries the nested confirmation object
`data.updateProjectV2ItemFieldValue.projectV2Item`: an HTTP 200 body with a
GraphQL `errors` array, or with absent/null/empty `data`, is failure, and
the move outcome is a success print exactly when an attempt was confirmed. -/
theorem C5_mutator_success_check :
    (∀ b, b.hasKey "errors" = true →
      moveOk (gql (.response 200 (some b))) = false)
    ∧ (∀ b, (b.getD "data" .null).truthy = false →
      moveOk (gql (.response 200 (some b))) = false)
    ∧ (∀ (g : Resolved) (item : String) (env : MoveEnv),
      ((move_issue_to_dev g item env).2 = .movedFirst ↔
        moveOk env.moveResp = true))
    ∧ (∀ (g : Resolved) (item : String) (env : MoveEnv),
      ((move_issue_to_dev g item env).2 ≠ .bothFailed ↔
        (moveOk env.moveResp = true ∨ moveOk env.altResp = true)))
    ∧ moveOk none = false := by
  have h200 : errStatus 200 = false := rfl
  refine ⟨?_, ?_, ?_, ?_, rfl⟩
  · intro b h
    simp [gql, h200, h, moveOk]
  · intro b h
    by_cases hk : b.hasKey "errors" <;> simp [gql, h200, h, hk, moveOk]
  · intro g item env
    rw [move_result_cases]
    by_cases h1 : moveOk env.moveResp <;> by_cases h2 : moveOk env.altResp <;>
      simp [h1, h2]
  · intro g item env
    rw [move_result_cases]
    by_cases h1 : moveOk env.moveResp <;> by_cases h2 : moveOk env.altResp <;>
      simp [h1, h2]

/-- C5, witness: the theorem applied at an errors-carrying body and at a
null-data body. -/
theorem C5_witness :
    Json.hasKey errBodyEx "errors" = true
    ∧ moveOk (gql (.response 200 (some errBodyEx))) = false
    ∧ (nullDataBodyEx.getD "data" .null).truthy = false
    ∧ moveOk (gql (.response 200 (some nullDataBodyEx))) = false :=
  ⟨rfl, C5_mutator_success_check.1 errBodyEx rfl, rfl, C5_mutator_success_check.2.1 nullDataBodyEx rfl⟩

/-- C6: project selection concatenates viewer boards and repository
boards in that order without de-duplication, picks the first whose title
contains the fragment, and fails rather than falling back when nothing
matches. -/
theorem C6_project_selection :
    (∀ v r, (∀ n ∈ v ++ r, projectMatch n = false) →
      ∃ msg, selectProject v r = .error msg)
    ∧ (∀ v r i b, (v ++ r).get? i = some (some b) →
      projectMatch (some b) = true →
      (∀ j x, j < i → (v ++ r).get? j = some x → projectMatch x = false) →
      selectProject v r = .ok b) := by
  constructor
  · intro v r hall
    by_cases hemp : (v ++ r).isEmpty
    · exact ⟨msgNoProjects, by simp [selectProject, hemp]⟩
    · have hf : (v ++ r).find? projectMatch = none :=
        List.find?_eq_none.mpr (by intro x hx; simp [hall x hx])
      refine ⟨msgProjNotFound, ?_⟩
      simp only [selectProject]
      rw [if_neg hemp, hf]
  · intro v r i b hget hpb hfirst
    have hne : v ++ r ≠ [] := by
      intro hnil
      rw [hnil] at hget
      simp at hget
    have hemp : (v ++ r).isEmpty = false := by
      cases hvr : v ++ r with
      | nil => exact absurd hvr hne
      | cons a t => rfl
    have hf : (v ++ r).find? projectMatch = some (some b) :=
      find?_first projectMatch (v ++ r) i (some b) hget hpb hfirst
    simp [selectProject, hemp, hf]

/-- C6, witness: the selection theorem applied at a concrete board
list. -/
theorem C6_witness :
    selectProject [some ⟨"PVT_B", "SimplyECS Kanban"⟩] [] =
      .ok ⟨"PVT_B", "SimplyECS Kanban"⟩ :=
  C6_project_selection.2 _ _ 0 _ rfl (by decide) (fun j x hj _ => absurd hj (by omega))

/-- C7, counterexample: a non-2xx status (301) whose body parses and
carries data is returned as a success, not as the `None` sentinel —
`raise_for_status` only raises for 4xx/5xx.  This refutes the claim for the
non-2xx, non-4xx/5xx statuses. -/
theorem C7_counterexample :
    gql (.response 301 (some body7ex)) = some body7ex
    ∧ ¬(200 ≤ 301 ∧ 301 < 300) :=
  ⟨rfl, by decide⟩

/-- C7, amended: `gql` returns the `None` sentinel (never raises) on
timeout, transport error, 4xx/5xx status, unparseable body, an
errors-carrying body, or absent/falsy data, and returns the parsed response
otherwise. -/
theorem C7_amended_holds :
    gql .timeout = none
    ∧ gql .transportErr = none
    ∧ (∀ s b, errStatus s = true → gql (.response s b) = none)
    ∧ (∀ s, gql (.response s none) = none)
    ∧ (∀ s b, b.hasKey "errors" = true → gql (.response s (some b)) = none)
    ∧ (∀ s b, (b.getD "data" .null).truthy = false →
        gql (.response s (some b)) = none)
    ∧ (∀ s b, errStatus s = false → b.hasKey "errors" = false →
        (b.getD "data" .null).truthy = true →
        gql (.response s (some b)) = some b) := by
  refine ⟨rfl, rfl, ?_, ?_, ?_, ?_, ?_⟩
  · intro s b h
    simp [gql, h]
  · intro s
    by_cases h : errStatus s <;> simp [gql, h]
  · intro s b h
    by_cases hs : errStatus s <;> simp [gql, hs, h]
  · intro s b h
    by_cases hs : errStatus s <;>
      by_cases hk : b.hasKey "errors" <;> simp [gql, hs, hk, h]
  · intro s b hs hk ht
    simp [gql, hs, hk, ht]

/-- C7, witness: the amended theorem applied at a 404 response and at an
errors-carrying 200 response. -/
theorem C7_witness :
    errStatus 404 = true
    ∧ gql (.response 404 (some body7ex)) = none
    ∧ Json.hasKey errBodyEx "errors" = true
    ∧ gql (.response 200 (some errBodyEx)) = none :=
  ⟨rfl, C7_amended_holds.2.2.1 404 (some body7ex) rfl,
   rfl, C7_amended_holds.2.2.2.2.1 200 errBodyEx rfl⟩

/-- C8, counterexample: a run that got past startup resolution and past
the branch step, but whose PR lookup failed, ends without ever attempting
the Slack notification — refuting the claim that the notifier runs at the
end of every such run. -/
theorem C8_counterexample :
    branchOk env8ex.branch = true
    ∧ (mainFlow g8ex env8ex (.response 200)).2.slackAttempted = false
    ∧ (mainFlow g8ex env8ex (.response 200)).1.any isSlackPost = false :=
  ⟨rfl, rfl, rfl⟩

/-- C8, amended: the notifier is attempted exactly when the branch step
succeeded (created or already existing) and a PR object was obtained; in
that case it runs regardless of file-creation, issue, card-move or comment
failures, and the Slack post appears in the call list exactly when it was
attempted. -/
theorem C8_amended_holds : ∀ (g : Resolved) (env : MainEnv) (slack : ReqOutcome),
    (mainFlow g env slack).2.slackAttempted =
      (branchOk env.branch && (prOf env.pr).isSome)
    ∧ (mainFlow g env slack).1.any isSlackPost =
      (mainFlow g env slack).2.slackAttempted :=
  fun g env slack =>
    ⟨mainFlow_slackAttempted g env slack, mainFlow_slack_trace g env slack⟩

/-- C9: the notifier never lets an exception escape (every outcome maps
to a caught result), delivery is reported exactly for non-4xx/5xx
responses, and the calls and primary outcome of the run are identical for
any two Slack webhook outcomes. -/
theorem C9_notifier_isolation :
    (∀ o, ∃ b, notify_slack o = Except.ok b)
    ∧ (∀ s, notify_slack (.response s) = .ok true ↔ errStatus s = false)
    ∧ notify_slack .timeout = .ok false
    ∧ notify_slack .connectionError = .ok false
    ∧ (∀ (g : Resolved) (env : MainEnv) (s1 s2 : ReqOutcome),
        (mainFlow g env s1).1 = (mainFlow g env s2).1)
    ∧ (∀ (g : Resolved) (env : MainEnv) (s1 s2 : ReqOutcome),
        (mainFlow g env s1).2.primary = (mainFlow g env s2).2.primary) := by
  refine ⟨?_, ?_, rfl, rfl, ?_, ?_⟩
  · intro o
    cases o with
    | timeout => exact ⟨false, rfl⟩
    | connectionError => exact ⟨false, rfl⟩
    | response s => exact ⟨!errStatus s, notify_slack_response s⟩
  · intro s
    rw [notify_slack_response]
    by_cases h : errStatus s <;> simp [h]
  · intro g env s1 s2
    exact (mainFlow_slack_independent g env s1 s2).1
  · intro g env s1 s2
    exact (mainFlow_slack_independent g env s1 s2).2

/-- C10: the secondary option-id query is issued exactly when the
resolved option id does not start with `PVTO_`; when the prefix is present,
or the secondary query fails or returns no usable id, the original id is
used unchanged; and whenever the Dev option was found, resolution succeeds
regardless of the secondary query. -/
theorem C10_normalization :
    (∀ devId, needsSecondaryQuery devId = !(pyStartsWith devId "PVTO_"))
    ∧ (∀ pid fid devId sec, pyStartsWith devId "PVTO_" = true →
        finishResolution pid fid devId sec = ([], ⟨pid, fid, devId⟩))
    ∧ (∀ pid fid devId sec, pyStartsWith devId "PVTO_" = false →
        finishResolution pid fid devId sec =
          ([FetchAction.qSecondary], ⟨pid, fid, normalizeDevOptionId devId sec⟩))
    ∧ (∀ devId, normalizeDevOptionId devId none = devId)
    ∧ (∀ devId, normalizeDevOptionId devId (some []) = devId)
    ∧ (∀ devId rest, normalizeDevOptionId devId (some (⟨none⟩ :: rest)) = devId)
    ∧ (∀ (env : FetchEnv) (v r : List (Option BoardNode)) (proj : BoardNode)
        (sf : StatusFieldData) (fid : String) (devOpt : OptData),
        env.projResp = some (v, r) →
        selectProject v r = .ok proj →
        env.fieldResp = some (some sf) →
        sf.id = some fid →
        (fid == "") = false →
        devOptionLookup sf.options = .ok devOpt →
        (fetch_project_ids env).2 =
            .ok (finishResolution proj.id fid devOpt.id env.secondaryResp).2
          ∧ (FetchAction.qSecondary ∈ (fetch_project_ids env).1 ↔
              needsSecondaryQuery devOpt.id = true)) := by
  refine ⟨fun devId => rfl, ?_, ?_, fun devId => rfl, fun devId => rfl,
    fun devId rest => rfl, ?_⟩
  · intro pid fid devId sec h
    simp [finishResolution, h]
  · intro pid fid devId sec h
    simp [finishResolution, h]
  · intro env v r proj sf fid devOpt hproj hsel hfield hid hfid hdev
    rw [fetch_after_lookup env v r proj sf fid devOpt hproj hsel hfield hid
      hfid hdev]
    refine ⟨rfl, ?_⟩
    unfold finishResolution needsSecondaryQuery
    by_cases hps : pyStartsWith devOpt.id "PVTO_" <;> simp [hps]

/-- C10, witness: the theorem applied at a concrete environment whose
secondary query fails. -/
theorem C10_witness :
    (fetch_project_ids env10ex).2 = .ok ⟨"PVT_PX", "PVTSSF_FX", "def456"⟩
    ∧ (FetchAction.qSecondary ∈ (fetch_project_ids env10ex).1 ↔
        needsSecondaryQuery "def456" = true) := by
  have h := C10_normalization.2.2.2.2.2.2 env10ex [some ⟨"PVT_PX", "SimplyECS Kanban"⟩] []
    ⟨"PVT_PX", "SimplyECS Kanban"⟩
    ⟨some "PVTSSF_FX", [⟨"abc123", "Todo"⟩, ⟨"def456", "Dev"⟩]⟩
    "PVTSSF_FX" ⟨"def456", "Dev"⟩ rfl rfl rfl rfl rfl rfl
  exact h
